import Mathlib

/-!
Shallow embedding of `src/cpu/cpu_sw64.c`, the sw64 CPU driver of libvirt:
the compare, update, host-detection and model-registry operations, together
with theorems settling the specified properties.

C strings are embedded as `List Char` (the empty list is the terminating NUL),
line-oriented input as `List (List Char)`, and the in-place mutation of
`virCPUDef` objects as functions returning the final state of the object.
-/

/-- The CPU modes relevant to this driver (`VIR_CPU_MODE_*`). -/
inductive virCPUMode where
  | hostModel
  | custom
  | hostPassthrough
deriving DecidableEq

/-- The CPU match policies relevant to this driver (`VIR_CPU_MATCH_*`). -/
inductive virCPUMatch where
  | exact
  | minimum
  | strict
deriving DecidableEq

/-- The comparison results (`virCPUCompareResult`). -/
inductive virCPUCompareResult where
  | error
  | incompatible
  | identical
  | superset
deriving DecidableEq

/-- The fields of `virCPUDef` this driver reads or writes: mode, match policy,
optional model name, and the (unused) feature list. -/
structure virCPUDef where
  mode : virCPUMode
  matchPolicy : virCPUMatch
  model : Option String
  features : List String
deriving DecidableEq

/-- The error kinds this driver can report. -/
inductive cpuError where
  | UnknownHostModel
  | SourceUnavailable
  | MalformedHostInfo
  | DuplicateModel
deriving DecidableEq

/-- Outcome of `virCPUsw64Update`: the C status (`0` or `-1`) plus the final
state of the caller-owned guest definition. -/
inductive UpdateResult where
  | ok (guest : virCPUDef)
  | err (e : cpuError) (guest : virCPUDef)
deriving DecidableEq

/-- `virCPUsw64Compare` from the source: returns `VIR_CPU_COMPARE_IDENTICAL`
unconditionally, ignoring all three arguments. -/
def virCPUsw64Compare (host cpu : virCPUDef) (failMessages : Bool) :
    virCPUCompareResult :=
  virCPUCompareResult.identical

/-- Modelled from the spec: `virCPUDefCopyWithoutModel` (not under `src/`)
constructs a working copy of the guest definition with its model/feature
content cleared but its non-model attributes preserved. -/
def virCPUDefCopyWithoutModel (g : virCPUDef) : virCPUDef :=
  { g with model := none, features := [] }

/-- Modelled from the spec: `virCPUDefCopyModel` (not under `src/`) copies the
host's model content into the destination with override semantics — the host's
model authoritatively replaces anything previously present. -/
def virCPUDefCopyModel (dst src : virCPUDef) : virCPUDef :=
  { dst with model := src.model, features := src.features }

/-- Modelled from the spec: `virCPUDefStealModel` (not under `src/`) transfers
the working copy's model-bearing fields into the guest; the working copy is
consumed and not reused afterwards. -/
def virCPUDefStealModel (g upd : virCPUDef) : virCPUDef :=
  { g with model := upd.model, features := upd.features }

/-- `virCPUsw64Update` from the source: a no-op returning success unless
`relative` is set and the guest mode is `HOST_MODEL`; then it fails with
"unknown host CPU model" if no host is given, and otherwise rewrites the
guest in place via copy-without-model / copy-model / steal-model, forcing
mode `CUSTOM` and match `EXACT`. -/
def virCPUsw64Update (guest : virCPUDef) (host : Option virCPUDef)
    (relative : Bool) : UpdateResult :=
  if relative = false ∨ guest.mode ≠ virCPUMode.hostModel then
    UpdateResult.ok guest
  else
    match host with
    | none => UpdateResult.err cpuError.UnknownHostModel guest
    | some h =>
        let updated := virCPUDefCopyWithoutModel guest
        let updated := { updated with mode := virCPUMode.custom }
        let updated := virCPUDefCopyModel updated h
        let guest := virCPUDefStealModel guest updated
        let guest := { guest with mode := virCPUMode.custom,
                                  matchPolicy := virCPUMatch.exact }
        UpdateResult.ok guest

/-- `g_ascii_isspace` from GLib, used by the parser: ASCII space, tab, newline,
vertical tab, form feed, carriage return. -/
def gAsciiIsspace (c : Char) : Bool :=
  c == ' ' || c == '\t' || c == '\n' || c == '\x0b' || c == '\x0c' || c == '\r'

/-- Numeric value of a run of decimal digits. -/
def digitsVal (ds : List Char) : Nat :=
  ds.foldl (fun a c => 10 * a + (c.toNat - 48)) 0

/-- Modelled from the spec: `virStrToLong_ui` (not under `src/`) parses a
base-10 unsigned integer immediately at the start of the string, returning its
value and the remaining suffix; fails when no digit is present. -/
def virStrToLong_ui (s : List Char) : Option (Nat × List Char) :=
  if s.takeWhile Char.isDigit = [] then none
  else some (digitsVal (s.takeWhile Char.isDigit), s.dropWhile Char.isDigit)

/-- Status of `sw64CPUParseCpuModeString`: the C return values `1` (the line
does not match, move on), `0` (parsed, the out-parameter was written) and
`-1` (malformed, report an error). -/
inductive ParseStatus where
  | noMatch
  | ok (mode : Nat)
  | err
deriving DecidableEq

/-- `sw64CPUParseCpuModeString` from the source: on a line starting with the
label, skip the label and whitespace (end of string is an error), require a
colon (anything else is a non-match), skip whitespace again (end of string is
an error), then parse an unsigned integer that must be followed by end of
string, whitespace or a dot. -/
def sw64CPUParseCpuModeString (str pfx : List Char) : ParseStatus :=
  if pfx.isPrefixOf str then
    match (str.drop pfx.length).dropWhile gAsciiIsspace with
    | [] => ParseStatus.err
    | c :: rest =>
      if c == ':' then
        let s3 := rest.dropWhile gAsciiIsspace
        if s3 = [] then ParseStatus.err
        else
          match virStrToLong_ui s3 with
          | none => ParseStatus.err
          | some (ui, p) =>
            match p with
            | [] => ParseStatus.ok ui
            | d :: _ =>
              if d == '.' || gAsciiIsspace d then ParseStatus.ok ui
              else ParseStatus.err
      else ParseStatus.noMatch
  else ParseStatus.noMatch

/-- The fixed label `"cpu variation"` scanned for by `sw64CPUParseCpuMode`. -/
def cpuVariationLabel : List Char := "cpu variation".toList

/-- `sw64CPUParseCpuMode` from the source: scan every line of the input;
abort with an error as soon as one matching line is malformed, otherwise
each successfully parsed value overwrites the current mode. -/
def sw64CPUParseCpuMode (ls : List (List Char)) (mode : Nat) : Option Nat :=
  match ls with
  | [] => some mode
  | l :: rest =>
    match sw64CPUParseCpuModeString l cpuVariationLabel with
    | ParseStatus.err => none
    | ParseStatus.ok m => sw64CPUParseCpuMode rest m
    | ParseStatus.noMatch => sw64CPUParseCpuMode rest mode

/-- Outcome of `virCPUsw64GetHost`: the C status plus the final state of the
caller-owned host CPU definition. -/
inductive GetHostResult where
  | ok (cpu : virCPUDef)
  | err (e : cpuError) (cpu : virCPUDef)
deriving DecidableEq

/-- `virCPUsw64GetHost` from the source: fail if the cpuinfo source cannot be
opened (`none`), scan it for the variation code starting from the (otherwise
arbitrary) initial value `m0` of the uninitialized local `mode`, and on
success set the model to "core3" for code 3 and "core4" for code 4, leaving
it untouched for any other code. -/
def virCPUsw64GetHost (cpu : virCPUDef) (cpuinfo : Option (List (List Char)))
    (m0 : Nat) : GetHostResult :=
  match cpuinfo with
  | none => GetHostResult.err cpuError.SourceUnavailable cpu
  | some ls =>
    match sw64CPUParseCpuMode ls m0 with
    | none => GetHostResult.err cpuError.MalformedHostInfo cpu
    | some m =>
      if m = 3 then GetHostResult.ok { cpu with model := some ("core3") }
      else if m = 4 then GetHostResult.ok { cpu with model := some ("core4") }
      else GetHostResult.ok cpu

/-- `struct _sw64Model` from the source: a named CPU model. -/
structure sw64Model where
  name : String
deriving DecidableEq

/-- `struct _sw64Map` from the source: the model registry, an ordered sequence
of models (`nmodels` is its length). -/
structure sw64Map where
  models : List sw64Model
deriving DecidableEq

/-- `sw64ModelFind` from the source: linear scan of the registry for the first
model with exactly (case-sensitively) the given name. -/
def sw64ModelFind (map : sw64Map) (name : String) : Option sw64Model :=
  map.models.find? (fun m => m.name == name)

/-- `sw64ModelParse` from the source, the registration callback: build a model
from the declared name, fail with "CPU model ... already defined" if the name
is already registered, otherwise append it to the registry. -/
def sw64ModelParse (name : String) (map : sw64Map) : Except cpuError sw64Map :=
  match sw64ModelFind map name with
  | some _ => Except.error cpuError.DuplicateModel
  | none => Except.ok { models := map.models ++ [⟨name⟩] }

/-- Modelled from the spec: `cpuMapLoad` (not under `src/`) replays each
declared model name, in declaration order, through the registration callback,
aborting the whole build on the first callback failure. -/
def sw64LoadMapAux (names : List String) (map : sw64Map) :
    Except cpuError sw64Map :=
  match names with
  | [] => Except.ok map
  | n :: rest =>
    match sw64ModelParse n map with
    | Except.error e => Except.error e
    | Except.ok m => sw64LoadMapAux rest m

/-- `sw64LoadMap` from the source: build the registry from scratch by replaying
the declared model names through `sw64ModelParse`. -/
def sw64LoadMap (names : List String) : Except cpuError sw64Map :=
  sw64LoadMapAux names ⟨[]⟩

/-- `virCPUsw64DriverGetModels` from the source: build the registry and return
the model count together with the name list in registry order; on a failed
build return the error (the C code frees the partial list, stores NULL and
returns `-1`). -/
def virCPUsw64DriverGetModels (names : List String) :
    Except cpuError (Nat × List String) :=
  match sw64LoadMap names with
  | Except.error e => Except.error e
  | Except.ok map =>
      Except.ok (map.models.length, map.models.map (fun m => m.name))

/-- Claim C4: for every host and guest CPU definition (including degenerate
ones) and either value of `failMessages`, `virCPUsw64Compare` returns
`IDENTICAL`; it has no failure path. -/
theorem compare_always_identical (host cpu : virCPUDef) (failMessages : Bool) :
    virCPUsw64Compare host cpu failMessages = virCPUCompareResult.identical :=
  rfl

/-- Claim C1: for every guest with mode `HOST_MODEL` under a relative update
and every non-null host, `virCPUsw64Update` succeeds and leaves the guest with
mode `CUSTOM`, match `EXACT`, and the host's model (and features), the other
fields preserved. -/
theorem update_resolves_host_model (guest h : virCPUDef)
    (hm : guest.mode = virCPUMode.hostModel) :
    virCPUsw64Update guest (some h) true =
      UpdateResult.ok { guest with mode := virCPUMode.custom,
                                   matchPolicy := virCPUMatch.exact,
                                   model := h.model,
                                   features := h.features } := by
  simp [virCPUsw64Update, hm, virCPUDefCopyWithoutModel, virCPUDefCopyModel,
        virCPUDefStealModel]

/-- Witness for C1 at a concrete guest and a host with model "core4". -/
theorem update_resolves_host_model_witness :
    virCPUsw64Update
        ⟨virCPUMode.hostModel, virCPUMatch.minimum, none, []⟩
        (some ⟨virCPUMode.custom, virCPUMatch.strict, some ("core4"), []⟩)
        true =
      UpdateResult.ok
        ⟨virCPUMode.custom, virCPUMatch.exact, some ("core4"), []⟩ :=
  update_resolves_host_model
    ⟨virCPUMode.hostModel, virCPUMatch.minimum, none, []⟩
    ⟨virCPUMode.custom, virCPUMatch.strict, some ("core4"), []⟩ rfl

/-- Claim C3: for every guest with mode `HOST_MODEL` under a relative update,
if no host definition is supplied, `virCPUsw64Update` fails with
`UnknownHostModel` and the guest is left fully untouched. -/
theorem update_null_host_fails (guest : virCPUDef)
    (hm : guest.mode = virCPUMode.hostModel) :
    virCPUsw64Update guest none true =
      UpdateResult.err cpuError.UnknownHostModel guest := by
  simp [virCPUsw64Update, hm]

/-- Witness for C3 at a concrete guest. -/
theorem update_null_host_fails_witness :
    virCPUsw64Update ⟨virCPUMode.hostModel, virCPUMatch.minimum, none, []⟩
        none true =
      UpdateResult.err cpuError.UnknownHostModel
        ⟨virCPUMode.hostModel, virCPUMatch.minimum, none, []⟩ :=
  update_null_host_fails
    ⟨virCPUMode.hostModel, virCPUMatch.minimum, none, []⟩ rfl

/-- Claim C9: whenever `relative` is false or the guest's mode is not
`HOST_MODEL`, `virCPUsw64Update` reports success and leaves every field of the
guest unchanged. -/
theorem update_noop (guest : virCPUDef) (host : Option virCPUDef)
    (relative : Bool)
    (h : relative = false ∨ guest.mode ≠ virCPUMode.hostModel) :
    virCPUsw64Update guest host relative = UpdateResult.ok guest := by
  unfold virCPUsw64Update
  rw [if_pos h]

/-- Witness for C9 at a concrete guest in `HOST_MODEL` mode with a concrete
host but `relative = false`. -/
theorem update_noop_witness :
    virCPUsw64Update ⟨virCPUMode.hostModel, virCPUMatch.minimum, none, []⟩
        (some ⟨virCPUMode.custom, virCPUMatch.strict, some ("core4"), []⟩)
        false =
      UpdateResult.ok
        ⟨virCPUMode.hostModel, virCPUMatch.minimum, none, []⟩ :=
  update_noop ⟨virCPUMode.hostModel, virCPUMatch.minimum, none, []⟩
    (some ⟨virCPUMode.custom, virCPUMatch.strict, some ("core4"), []⟩)
    false (Or.inl rfl)

/-- A list is a prefix (in the executable `isPrefixOf` sense) of itself
followed by anything. -/
theorem isPrefixOf_append_self (l r : List Char) :
    l.isPrefixOf (l ++ r) = true := by
  induction l with
  | nil => simp
  | cons c cs ih => simp [ih]

/-- Claim C5: for a line that starts with the label, the parser errors when
input ends after the label plus whitespace, treats a non-colon next character
as a non-match (and the scan then continues without failing), errors when
input ends after the colon plus whitespace, errors when the parsed integer is
followed by anything other than end of string, whitespace or a dot, and in
particular host detection on the single line "cpu variation\n" fails with
`MalformedHostInfo`. -/
theorem parse_mode_string_error_cases (rest : List Char) (cpu : virCPUDef)
    (m0 : Nat) :
    (rest.dropWhile gAsciiIsspace = [] →
      sw64CPUParseCpuModeString (cpuVariationLabel ++ rest) cpuVariationLabel =
        ParseStatus.err) ∧
    (∀ c s, rest.dropWhile gAsciiIsspace = c :: s → (c == ':') = false →
      sw64CPUParseCpuModeString (cpuVariationLabel ++ rest) cpuVariationLabel =
        ParseStatus.noMatch) ∧
    (∀ s, rest.dropWhile gAsciiIsspace = ':' :: s →
      s.dropWhile gAsciiIsspace = [] →
      sw64CPUParseCpuModeString (cpuVariationLabel ++ rest) cpuVariationLabel =
        ParseStatus.err) ∧
    (∀ s ui d p, rest.dropWhile gAsciiIsspace = ':' :: s →
      virStrToLong_ui (s.dropWhile gAsciiIsspace) = some (ui, d :: p) →
      (d == '.' || gAsciiIsspace d) = false →
      sw64CPUParseCpuModeString (cpuVariationLabel ++ rest) cpuVariationLabel =
        ParseStatus.err) ∧
    (∀ l ls m, sw64CPUParseCpuModeString l cpuVariationLabel =
        ParseStatus.noMatch →
      sw64CPUParseCpuMode (l :: ls) m = sw64CPUParseCpuMode ls m) ∧
    (virCPUsw64GetHost cpu (some ["cpu variation\n".toList]) m0 =
      GetHostResult.err cpuError.MalformedHostInfo cpu) := by
  refine ⟨?_, ?_, ?_, ?_, ?_, ?_⟩
  · intro h
    simp [sw64CPUParseCpuModeString, isPrefixOf_append_self, List.drop_left, h]
  · intro c s h hc
    simp [sw64CPUParseCpuModeString, isPrefixOf_append_self, List.drop_left,
          h, hc]
  · intro s h h2
    simp [sw64CPUParseCpuModeString, isPrefixOf_append_self, List.drop_left,
          h, h2]
  · intro s ui d p h hv hd
    have h3 : s.dropWhile gAsciiIsspace ≠ [] := by
      intro he
      rw [he] at hv
      simp [virStrToLong_ui] at hv
    simp [sw64CPUParseCpuModeString, isPrefixOf_append_self, List.drop_left,
          h, h3, hv, hd]
  · intro l ls m h
    simp [sw64CPUParseCpuMode, h]
  · have hline : sw64CPUParseCpuModeString ("cpu variation\n".toList)
        cpuVariationLabel = ParseStatus.err := by decide
    simp only [virCPUsw64GetHost, sw64CPUParseCpuMode, hline]

/-- Witness for C5: trailing junk after the integer errors, a shared-prefix
line with no colon is a non-match, and a single "cpu variation\n" line makes
detection fail with `MalformedHostInfo`. -/
theorem parse_mode_string_error_cases_witness :
    sw64CPUParseCpuModeString (cpuVariationLabel ++ " : 3x\n".toList)
      cpuVariationLabel = ParseStatus.err ∧
    sw64CPUParseCpuModeString (cpuVariationLabel ++ "s : 3\n".toList)
      cpuVariationLabel = ParseStatus.noMatch ∧
    virCPUsw64GetHost ⟨virCPUMode.custom, virCPUMatch.exact, none, []⟩
        (some ["cpu variation\n".toList]) 0 =
      GetHostResult.err cpuError.MalformedHostInfo
        ⟨virCPUMode.custom, virCPUMatch.exact, none, []⟩ :=
  ⟨(parse_mode_string_error_cases (" : 3x\n".toList)
      ⟨virCPUMode.custom, virCPUMatch.exact, none, []⟩ 0).2.2.2.1
      (" 3x\n".toList) 3 'x' (['\n']) (by decide) (by decide) (by decide),
   (parse_mode_string_error_cases ("s : 3\n".toList)
      ⟨virCPUMode.custom, virCPUMatch.exact, none, []⟩ 0).2.1
      's' (" : 3\n".toList) (by decide) (by decide),
   (parse_mode_string_error_cases []
      ⟨virCPUMode.custom, virCPUMatch.exact, none, []⟩ 0).2.2.2.2.2⟩

/-- Claim C2: when host detection succeeds, the final parsed variation code
is mapped as 3 to "core3" and 4 to "core4", while any other code leaves the
host definition's model untouched and detection still succeeds. -/
theorem getHost_variation_mapping (cpu : virCPUDef) (ls : List (List Char))
    (m0 m : Nat) (hp : sw64CPUParseCpuMode ls m0 = some m) :
    (m = 3 → virCPUsw64GetHost cpu (some ls) m0 =
      GetHostResult.ok { cpu with model := some ("core3") }) ∧
    (m = 4 → virCPUsw64GetHost cpu (some ls) m0 =
      GetHostResult.ok { cpu with model := some ("core4") }) ∧
    (m ≠ 3 → m ≠ 4 → virCPUsw64GetHost cpu (some ls) m0 =
      GetHostResult.ok cpu) := by
  refine ⟨?_, ?_, ?_⟩
  · intro h3
    subst h3
    simp only [virCPUsw64GetHost, hp]
    simp
  · intro h4
    subst h4
    simp only [virCPUsw64GetHost, hp]
    simp
  · intro h3 h4
    simp only [virCPUsw64GetHost, hp]
    simp [h3, h4]

/-- Witness for C2 on the lines "cpu variation : 3", "cpu variation : 4" and
"cpu variation : 7": the first two set the model, the third leaves it unset
while succeeding. -/
theorem getHost_variation_mapping_witness :
    virCPUsw64GetHost ⟨virCPUMode.custom, virCPUMatch.exact, none, []⟩
        (some ["cpu variation : 3\n".toList]) 0 =
      GetHostResult.ok
        ⟨virCPUMode.custom, virCPUMatch.exact, some ("core3"), []⟩ ∧
    virCPUsw64GetHost ⟨virCPUMode.custom, virCPUMatch.exact, none, []⟩
        (some ["cpu variation : 4\n".toList]) 0 =
      GetHostResult.ok
        ⟨virCPUMode.custom, virCPUMatch.exact, some ("core4"), []⟩ ∧
    virCPUsw64GetHost ⟨virCPUMode.custom, virCPUMatch.exact, none, []⟩
        (some ["cpu variation : 7\n".toList]) 0 =
      GetHostResult.ok ⟨virCPUMode.custom, virCPUMatch.exact, none, []⟩ :=
  ⟨(getHost_variation_mapping ⟨virCPUMode.custom, virCPUMatch.exact, none, []⟩
      ["cpu variation : 3\n".toList] 0 3 (by decide)).1 rfl,
   (getHost_variation_mapping ⟨virCPUMode.custom, virCPUMatch.exact, none, []⟩
      ["cpu variation : 4\n".toList] 0 4 (by decide)).2.1 rfl,
   (getHost_variation_mapping ⟨virCPUMode.custom, virCPUMatch.exact, none, []⟩
      ["cpu variation : 7\n".toList] 0 7 (by decide)).2.2
      (by decide) (by decide)⟩

/-- Claim C6: the line scan does not stop at the first match; appending a
further matching line to an input that scanned successfully makes that last
line's value the final detected variation code. -/
theorem parse_mode_last_wins (ls : List (List Char)) (l : List Char)
    (m0 m v : Nat) (h1 : sw64CPUParseCpuMode ls m0 = some m)
    (h2 : sw64CPUParseCpuModeString l cpuVariationLabel = ParseStatus.ok v) :
    sw64CPUParseCpuMode (ls ++ [l]) m0 = some v := by
  induction ls generalizing m0 with
  | nil =>
    simp only [List.nil_append, sw64CPUParseCpuMode, h2]
  | cons l0 rest ih =>
    rw [List.cons_append]
    cases hp : sw64CPUParseCpuModeString l0 cpuVariationLabel with
    | err =>
      simp [sw64CPUParseCpuMode, hp] at h1
    | ok v0 =>
      simp only [sw64CPUParseCpuMode, hp] at h1
      simp only [sw64CPUParseCpuMode, hp]
      exact ih v0 h1
    | noMatch =>
      simp only [sw64CPUParseCpuMode, hp] at h1
      simp only [sw64CPUParseCpuMode, hp]
      exact ih m0 h1

/-- Witness for C6: with two matching lines carrying 3 then 4, the final
detected code is 4. -/
theorem parse_mode_last_wins_witness :
    sw64CPUParseCpuMode
        (["cpu variation : 3\n".toList] ++ ["cpu variation : 4\n".toList]) 0 =
      some 4 :=
  parse_mode_last_wins ["cpu variation : 3\n".toList]
    ("cpu variation : 4\n".toList) 0 3 4 (by decide) (by decide)

/-- Claim C10: whenever `virCPUsw64GetHost` fails — unopenable source or a
malformed matching line — the caller-supplied host CPU definition in the
result is exactly the one passed in: detection is atomic on failure. -/
theorem getHost_failure_leaves_cpu (cpu cpu' : virCPUDef)
    (cpuinfo : Option (List (List Char))) (m0 : Nat) (e : cpuError)
    (h : virCPUsw64GetHost cpu cpuinfo m0 = GetHostResult.err e cpu') :
    cpu' = cpu := by
  cases cpuinfo with
  | none =>
    simp only [virCPUsw64GetHost, GetHostResult.err.injEq] at h
    exact h.2.symm
  | some ls =>
    cases hp : sw64CPUParseCpuMode ls m0 with
    | none =>
      simp only [virCPUsw64GetHost, hp, GetHostResult.err.injEq] at h
      exact h.2.symm
    | some m =>
      simp only [virCPUsw64GetHost, hp] at h
      split at h
      · exact absurd h (by simp)
      · split at h
        · exact absurd h (by simp)
        · exact absurd h (by simp)

/-- Witness for C10 at the malformed line "cpu variation\n" and an arbitrary
initial mode. -/
theorem getHost_failure_leaves_cpu_witness :
    virCPUsw64GetHost ⟨virCPUMode.hostModel, virCPUMatch.minimum, none, []⟩
        (some ["cpu variation\n".toList]) 5 =
      GetHostResult.err cpuError.MalformedHostInfo
        ⟨virCPUMode.hostModel, virCPUMatch.minimum, none, []⟩ ∧
    (⟨virCPUMode.hostModel, virCPUMatch.minimum, none, []⟩ : virCPUDef) =
      ⟨virCPUMode.hostModel, virCPUMatch.minimum, none, []⟩ :=
  ⟨by decide,
   getHost_failure_leaves_cpu
     ⟨virCPUMode.hostModel, virCPUMatch.minimum, none, []⟩
     ⟨virCPUMode.hostModel, virCPUMatch.minimum, none, []⟩
     (some ["cpu variation\n".toList]) 5 cpuError.MalformedHostInfo
     (by decide)⟩

/-- A name absent from the registry's name list is not found by
`sw64ModelFind`. -/
theorem sw64ModelFind_eq_none (map : sw64Map) (n : String)
    (h : n ∉ map.models.map sw64Model.name) : sw64ModelFind map n = none := by
  rw [sw64ModelFind, List.find?_eq_none]
  intro m hm he
  exact h (List.mem_map.mpr ⟨m, hm, by simpa using he⟩)

/-- Replaying duplicate-free names through the registration callback appends
exactly those names, in order, to the registry. -/
theorem sw64LoadMapAux_ok (names : List String) (map : sw64Map)
    (h : (map.models.map sw64Model.name ++ names).Nodup) :
    sw64LoadMapAux names map =
      Except.ok ⟨map.models ++ names.map (fun n => ⟨n⟩)⟩ := by
  induction names generalizing map with
  | nil => simp [sw64LoadMapAux]
  | cons n rest ih =>
    have hn : n ∉ map.models.map sw64Model.name := fun hm =>
      (List.nodup_append.mp h).2.2 hm (List.mem_cons_self n rest)
    have hfind := sw64ModelFind_eq_none map n hn
    have h' : ((({ models := map.models ++ [{ name := n }] } :
        sw64Map).models.map sw64Model.name) ++ rest).Nodup := by
      simpa using h
    simp only [sw64LoadMapAux, sw64ModelParse, hfind]
    rw [ih { models := map.models ++ [{ name := n }] } h']
    simp

/-- Replaying a name sequence with a duplicate through the registration
callback aborts the build with `DuplicateModel`, provided the registry held
distinct names to begin with. -/
theorem sw64LoadMapAux_dup (names : List String) (map : sw64Map)
    (hm : (map.models.map sw64Model.name).Nodup)
    (h : ¬ (map.models.map sw64Model.name ++ names).Nodup) :
    sw64LoadMapAux names map = Except.error cpuError.DuplicateModel := by
  induction names generalizing map with
  | nil => exact absurd (by simpa using hm) h
  | cons n rest ih =>
    by_cases hmem : n ∈ map.models.map sw64Model.name
    · obtain ⟨m, hm', he⟩ := List.mem_map.mp hmem
      cases hfind : sw64ModelFind map n with
      | none =>
        rw [sw64ModelFind, List.find?_eq_none] at hfind
        exact absurd (by simp [he]) (hfind m hm')
      | some m0 =>
        simp only [sw64LoadMapAux, sw64ModelParse, hfind]
    · have hfind := sw64ModelFind_eq_none map n hmem
      simp only [sw64LoadMapAux, sw64ModelParse, hfind]
      apply ih { models := map.models ++ [{ name := n }] }
      · simp [List.nodup_append, hm, hmem]
      · intro hcontra
        exact h (by simpa using hcontra)

/-- Projecting the names back out of freshly built models gives the names. -/
theorem map_mk_name (names : List String) :
    (names.map (fun n => (⟨n⟩ : sw64Model))).map (fun m => m.name) = names := by
  induction names with
  | nil => rfl
  | cons n rest ih => simp [ih]

/-- Claim C8: for every duplicate-free sequence of declared model names,
building the registry and listing the models returns exactly that sequence,
in declaration order, with the count equal to the number of declared names. -/
theorem getModels_nodup_roundtrip (names : List String) (h : names.Nodup) :
    virCPUsw64DriverGetModels names = Except.ok (names.length, names) := by
  have hload := sw64LoadMapAux_ok names ⟨[]⟩ (by simpa using h)
  simp only [virCPUsw64DriverGetModels, sw64LoadMap, hload, List.nil_append]
  rw [map_mk_name, List.length_map]

/-- Witness for C8 at the declared names "core3", "core4". -/
theorem getModels_nodup_roundtrip_witness :
    virCPUsw64DriverGetModels ["core3", "core4"] =
      Except.ok (2, ["core3", "core4"]) :=
  getModels_nodup_roundtrip ["core3", "core4"] (by decide)

/-- Claim C7: for every declared model sequence containing a duplicate name
(case-sensitive exact match), the registry build fails with `DuplicateModel`
and the model-listing operation signals that error instead of returning any
(partial) list. -/
theorem getModels_duplicate_fails (names : List String) (h : ¬ names.Nodup) :
    virCPUsw64DriverGetModels names = Except.error cpuError.DuplicateModel := by
  have hload := sw64LoadMapAux_dup names ⟨[]⟩ (by simp) (by simpa using h)
  simp only [virCPUsw64DriverGetModels, sw64LoadMap, hload]

/-- Witness for C7 at the declared names "core3", "core3". -/
theorem getModels_duplicate_fails_witness :
    virCPUsw64DriverGetModels ["core3", "core3"] =
      Except.error cpuError.DuplicateModel :=
  getModels_duplicate_fails ["core3", "core3"] (by decide)
